import Mathlib

/-!
Shallow embedding of the `local-business` lead-automation pipeline
(`config.py`, `validator.py`, `business_finder.py`, `database.py`,
`pythonanywhere_deploy/pipeline.py`) together with theorems checking the
natural-language specification against it.

Machine floats of the source are embedded as rationals, Python `None` as
`Option`, Python dicts with a fixed key set as structures.
-/

namespace LocalBusiness

/-! ### Config (src/pythonanywhere_deploy/config.py)

Values are the `.env` defaults: `MIN_RATING = 4.0`, `MIN_REVIEWS = 20`. -/

def MIN_RATING : ℚ := 4

def MIN_REVIEWS : ℤ := 20

def SOCIAL_ONLY_PATTERNS : List String :=
  ["facebook.com", "instagram.com", "twitter.com",
   "linkedin.com", "tiktok.com", "youtube.com"]

/-! ### Python string primitives -/

/-- Python whitespace for `str.strip()` (ASCII part). -/
def isPySpace (c : Char) : Bool :=
  c = ' ' || c = '\t' || c = '\n' || c = '\r' || c = '\x0b' || c = '\x0c'

/-- Python `str.strip()` with no argument. -/
def pyStrip (s : String) : String :=
  ⟨((s.data.dropWhile isPySpace).reverse.dropWhile isPySpace).reverse⟩

/-- Python `str.lower()` (ASCII part, which is all that URLs need). -/
def pyLower (s : String) : String :=
  ⟨s.data.map Char.toLower⟩

/-- Python `pattern in s` substring test. -/
def substrIn (pattern s : String) : Bool :=
  (List.range (s.data.length + 1)).any (fun i => pattern.data.isPrefixOf (s.data.drop i))

/-! ### urllib.parse.urlparse, restricted to component extraction.

Models the split of a URL into scheme / netloc / path / params / query /
fragment exactly as `urlsplit` plus `_splitparams` compute them: the input
sanitization (left strip of WHATWG C0-control-or-space characters, removal
of the tab, CR and LF bytes everywhere), the component split, and the
`ValueError: Invalid IPv6 URL` that `urlsplit` raises when the netloc has a
square bracket without its partner.  `urlsplitE` carries that error as
`Except.error`; `urlsplit` is the same computation with the error branch
collapsed, for the inputs on which the library returns.  The stricter
validation of well-bracketed hosts that CPython 3.11 adds
(`_check_bracketed_host`, rejecting bracketed hosts that are not IPv6 or
IPvFuture literals) is version-dependent and not modelled. -/

def scheme_chars (c : Char) : Bool :=
  c.isAlpha || c.isDigit || c = '+' || c = '-' || c = '.'

/-- Split a leading `scheme:` off the URL, as `urlsplit` does:
the text before the first `:` must be non-empty, start with a letter and
consist of scheme characters. Returns `(scheme, rest)`. -/
def dropSchemeChars (l : List Char) : List Char × List Char :=
  let i := l.findIdx (fun c => c = ':')
  if i < l.length then
    if 0 < i && (l.headD ' ').isAlpha && ((l.take i).drop 1).all scheme_chars then
      (l.take i, l.drop (i + 1))
    else ([], l)
  else ([], l)

/-- Models `_splitnetloc`: the input starts with `//`; the netloc runs up to the
first of `/`, `?`, `#`. Returns `(netloc, rest)`. -/
def splitNetlocChars (l : List Char) : List Char × List Char :=
  let rest := l.drop 2
  let d := rest.findIdx (fun c => c = '/' || c = '?' || c = '#')
  (rest.take d, rest.drop d)

/-- Split at the first occurrence of `c`: Python `s.split(c, 1)`. -/
def splitOnceChar (c : Char) (l : List Char) : List Char × List Char :=
  let i := l.findIdx (fun x => x = c)
  if i < l.length then (l.take i, l.drop (i + 1)) else (l, [])

structure SplitResult where
  scheme : String
  netloc : String
  path : String
  query : String
  fragment : String
deriving Repr, DecidableEq

/-- The WHATWG C0-control-or-space set (code points up to 0x20) that
`urlsplit` strips from the left of its input. -/
def isC0ControlOrSpace (c : Char) : Bool :=
  c.toNat ≤ 32

/-- Input sanitization of `urlsplit`: a left strip of
C0-control-or-space characters, then removal of the tab, CR and LF bytes
everywhere. -/
def urlSanitize (url : String) : List Char :=
  (url.data.dropWhile isC0ControlOrSpace).filter
    (fun c => !(c = '\t' || c = '\r' || c = '\n'))

/-- Models `urllib.parse.urlsplit` (component extraction), with the
mismatched-bracket error branch collapsed: the value it computes on the
inputs on which the library returns.  `urlsplitE` is the model with the
error. -/
def urlsplit (url : String) : SplitResult :=
  let l := urlSanitize url
  let (sch, l1) := dropSchemeChars l
  let (netloc, l2) :=
    if l1.take 2 = ['/', '/'] then splitNetlocChars l1 else ([], l1)
  let (l3, frag) := splitOnceChar '#' l2
  let (path, query) := splitOnceChar '?' l3
  ⟨⟨sch.map Char.toLower⟩, ⟨netloc⟩, ⟨path⟩, ⟨query⟩, ⟨frag⟩⟩

/-- Models `urllib.parse.urlsplit` with its error path: after sanitization,
scheme split and netloc extraction, a netloc holding a `[` without a `]` or
a `]` without a `[` raises `ValueError: Invalid IPv6 URL`.  (When the URL
does not start its netloc with `//`, the netloc is empty and the check is
vacuous, exactly as in the library.) -/
def urlsplitE (url : String) : Except String SplitResult :=
  let l := urlSanitize url
  let (sch, l1) := dropSchemeChars l
  let (netloc, l2) :=
    if l1.take 2 = ['/', '/'] then splitNetlocChars l1 else ([], l1)
  if (netloc.contains '[' && !netloc.contains ']') ||
     (netloc.contains ']' && !netloc.contains '[') then
    Except.error "Invalid IPv6 URL"
  else
    let (l3, frag) := splitOnceChar '#' l2
    let (path, query) := splitOnceChar '?' l3
    Except.ok ⟨⟨sch.map Char.toLower⟩, ⟨netloc⟩, ⟨path⟩, ⟨query⟩, ⟨frag⟩⟩

/-- Index of the last `/` in `l`, when there is one (Python `rfind`). -/
def rfindSlash (l : List Char) : Option Nat :=
  match l.reverse.findIdx? (fun c => c = '/') with
  | none => none
  | some k => some (l.length - 1 - k)

/-- Models `_splitparams`: split `path;params` at the first `;` that follows the
last `/` (or the first `;` at all when the path has no `/`). -/
def splitParamsChars (p : List Char) : List Char × List Char :=
  match rfindSlash p with
  | some j =>
    let k := (p.drop j).findIdx (fun c => c = ';')
    if k < (p.drop j).length then (p.take (j + k), p.drop (j + k + 1)) else (p, [])
  | none =>
    let i := p.findIdx (fun c => c = ';')
    (p.take i, p.drop (i + 1))

/-- The schemes for which `urlparse` splits params off the path. -/
def uses_params : List String :=
  ["", "ftp", "hdl", "prospero", "http", "imap", "https", "shttp",
   "rtsp", "rtspu", "sip", "sips", "mms", "sftp", "tel"]

structure UrlParseResult where
  scheme : String
  netloc : String
  path : String
  params : String
  query : String
  fragment : String
deriving Repr, DecidableEq

/-- Models `urllib.parse.urlparse` on the inputs where the library returns
(error branch collapsed; `urlparseE` carries it). -/
def urlparse (url : String) : UrlParseResult :=
  let r := urlsplit url
  if uses_params.contains r.scheme && r.path.data.contains ';' then
    let (path, params) := splitParamsChars r.path.data
    ⟨r.scheme, r.netloc, ⟨path⟩, ⟨params⟩, r.query, r.fragment⟩
  else
    ⟨r.scheme, r.netloc, r.path, "", r.query, r.fragment⟩

/-- Models `urllib.parse.urlparse` with the `ValueError` of `urlsplit`
propagated. -/
def urlparseE (url : String) : Except String UrlParseResult :=
  match urlsplitE url with
  | .error e => .error e
  | .ok r =>
    .ok (if uses_params.contains r.scheme && r.path.data.contains ';' then
      let (path, params) := splitParamsChars r.path.data
      ⟨r.scheme, r.netloc, ⟨path⟩, ⟨params⟩, r.query, r.fragment⟩
    else
      ⟨r.scheme, r.netloc, r.path, "", r.query, r.fragment⟩)

/-! ### The business record (the dict flowing through the pipeline)

Keys that the code reads through `.get` with a fixed default are embedded as
plain fields (absent key ≡ default); keys whose absence the code
distinguishes only via falsiness (`phone`, `website`, `owner_name`,
`search_id`, `id`) are `Option`. -/

structure Business where
  name : String
  category : String
  location : String
  address : String
  phone : Option String
  rating : ℚ
  review_count : ℤ
  website : Option String
  google_maps_url : String
  latitude : Option ℚ
  longitude : Option ℚ
  place_id : String
  type : String
  hours : String
  source : String
  owner_name : Option String
  search_id : Option ℤ
  id : Option ℕ
  website_status : String
  lead_score : ℕ
  is_valid_lead : Bool
  is_super_lead : Bool
  outreach_stage : String
  validation_notes : String
deriving Repr, DecidableEq

/-! ### Validator (src/validator.py) -/

structure Validator where
  min_rating : ℚ
  min_reviews : ℤ
  social_patterns : List String
deriving Repr

/-- Embeds the validator constructor, reading the `Config` defaults. -/
def Validator.default : Validator :=
  ⟨MIN_RATING, MIN_REVIEWS, SOCIAL_ONLY_PATTERNS⟩

/-- Embeds `Validator._check_rating`. -/
def Validator.check_rating (v : Validator) (rating : ℚ) : Bool :=
  v.min_rating ≤ rating

/-- Embeds `Validator._check_reviews`. -/
def Validator.check_reviews (v : Validator) (review_count : ℤ) : Bool :=
  v.min_reviews ≤ review_count

/-- Embeds `Validator.check_website`.  The reachability probe
(`_is_website_accessible`) is commented out in the source, so the only
outcomes are the three below. -/
def Validator.check_website (v : Validator) (website : Option String) : String :=
  match website with
  | none => "no_website"
  | some w =>
    if w = "" then "no_website"
    else
      let parsed := urlparse (pyLower w)
      let domain := if parsed.netloc ≠ "" then parsed.netloc else parsed.path
      if v.social_patterns.any (fun pat => substrIn pat domain) then "social_only"
      else "has_website"

/-- Embeds `Validator.check_website` together with the exception path: the
method does not catch the `ValueError` that `urlparse` raises on a
mismatched-bracket netloc, so it propagates instead of returning. -/
def Validator.check_websiteE (v : Validator) (website : Option String) :
    Except String String :=
  match website with
  | none => .ok "no_website"
  | some w =>
    if w = "" then .ok "no_website"
    else
      match urlparseE (pyLower w) with
      | .error e => .error e
      | .ok parsed =>
        let domain := if parsed.netloc ≠ "" then parsed.netloc else parsed.path
        .ok (if v.social_patterns.any (fun pat => substrIn pat domain) then "social_only"
             else "has_website")

/-- Embeds the contact check of the validator: phone is not None and does
not strip to the empty string. -/
def hasContact (phone : Option String) : Bool :=
  match phone with
  | none => false
  | some p => p ≠ "" && pyStrip p ≠ ""

/-- Python falsiness of an optional string (`not business.get('owner_name')`). -/
def ownerFalsy (o : Option String) : Bool :=
  match o with
  | none => true
  | some s => s = ""

/-- Embeds `Validator._calculate_lead_score`. -/
def Validator.calculate_lead_score (v : Validator) (business : Business)
    (rating_valid reviews_valid : Bool) (website_status : String) : ℕ :=
  let score : ℕ := 0
  let score := if rating_valid then score + 20 else score
  let score := if reviews_valid then score + 20 else score
  let rating := business.rating
  let score :=
    if mkRat 9 2 ≤ rating then score + 15        -- rating >= 4.5
    else if mkRat 21 5 ≤ rating then score + 10  -- rating >= 4.2
    else score
  let reviews := business.review_count
  let score :=
    if (100 : ℤ) ≤ reviews then score + 20
    else if (50 : ℤ) ≤ reviews then score + 15
    else if (30 : ℤ) ≤ reviews then score + 10
    else score
  let score :=
    if website_status = "no_website" then score + 35
    else if website_status = "social_only" then score + 25
    else if website_status = "broken" then score + 15
    else score + 5
  let score :=
    if ["linkedin", "clutch"].contains business.source then max score 85 else score
  min score 100

/-- Embeds `Validator._get_validation_notes`.  The numeric formatting of the
thresholds inside the f-strings is abstracted by `toString`. -/
def Validator.get_validation_notes (v : Validator) (business : Business)
    (rating_valid reviews_valid : Bool) (website_status : String) : String :=
  let notes : List String := []
  let notes := if !rating_valid then notes ++ ["Rating below " ++ toString v.min_rating] else notes
  let notes := if !reviews_valid then notes ++ ["Reviews below " ++ toString v.min_reviews] else notes
  let notes := if !hasContact business.phone then notes ++ ["❌ Missing Contact Info"] else notes
  let statusMessage :=
    if website_status = "no_website" then "🎯 High Interest - No website found"
    else if website_status = "social_only" then "⭐ Medium Interest - Social media only"
    else if website_status = "has_website" then "🔹 Low Interest - Already has website"
    else if website_status = "broken" then "⚠️ Potential Interest - Broken website"
    else "Unknown status"
  String.intercalate " | " (notes ++ [statusMessage])

/-- Embeds `Validator.validate_business`. -/
def Validator.validate_business (v : Validator) (business : Business) : Business :=
  let rating_valid := v.check_rating business.rating
  let reviews_valid := v.check_reviews business.review_count
  let website_status := v.check_website business.website
  let lead_score := v.calculate_lead_score business rating_valid reviews_valid website_status
  let source := business.source
  let is_valid_lead :=
    if ["linkedin", "clutch"].contains source then true
    else hasContact business.phone && (rating_valid || reviews_valid)
  let is_super_lead :=   -- rating >= 4.7 and review_count >= 50
    is_valid_lead && decide (mkRat 47 10 ≤ business.rating) && decide ((50 : ℤ) ≤ business.review_count)
  let outreach_stage :=
    if is_valid_lead && ownerFalsy business.owner_name then "blocked_no_owner"
    else if is_super_lead then "super_lead"
    else "lead"
  { business with
    website_status := website_status
    lead_score := lead_score
    is_valid_lead := is_valid_lead
    is_super_lead := is_super_lead
    outreach_stage := outreach_stage
    validation_notes := v.get_validation_notes business rating_valid reviews_valid website_status }

/-- Embeds `Validator.filter_valid_leads`.  Python stable in-place sorting
with a key and the reverse flag
is a stable sort placing higher scores first; `List.mergeSort` with this
comparison has exactly that semantics. -/
def Validator.filter_valid_leads (v : Validator) (businesses : List Business) : List Business :=
  let validated := businesses.map v.validate_business
  let valid_leads := validated.filter (fun b => b.is_valid_lead)
  valid_leads.mergeSort (fun a b => b.lead_score ≤ a.lead_score)

/-! ### BusinessFinder (src/business_finder.py) -/

/-- One raw result item from the search provider; every field may be absent. -/
structure SerpResult where
  title : Option String
  address : Option String
  phone : Option String
  rating : Option ℚ
  reviews : Option ℤ
  website : Option String
  link : Option String
  place_id : Option String
  gps_latitude : Option ℚ
  gps_longitude : Option ℚ
  type : Option String
  hours : Option String
deriving Repr, DecidableEq

def hexDigit (n : ℕ) : Char :=
  if n < 10 then Char.ofNat (48 + n) else Char.ofNat (55 + n)

def hexByte (b : UInt8) : String :=
  ⟨[hexDigit (b.toNat / 16), hexDigit (b.toNat % 16)]⟩

/-- Models `urllib.parse.quote` at its default safe set: keep ASCII
alphanumerics, `_.-~` and `/`, percent-encode every other byte of the
UTF-8 encoding. -/
def quote (s : String) : String :=
  String.join (s.data.map (fun c =>
    if c.isAlphanum || c = '_' || c = '.' || c = '-' || c = '~' || c = '/' then
      String.singleton c
    else
      String.join (((String.singleton c).toUTF8.toList).map (fun b => "%" ++ hexByte b))))

/-- Embeds `BusinessFinder._parse_business`.  Keys the produced dict does not carry
are embedded at the value every later read defaults them to
(`source = 'google_maps'`, `owner_name` absent, derived fields at their
read-defaults). -/
def BusinessFinder.parse_business (result : SerpResult) (category location : String) :
    Business :=
  let place_id := result.place_id.getD ""
  let link := result.link.getD ""
  let google_maps_url :=
    if link ≠ "" then link
    else if place_id ≠ "" then
      "https://www.google.com/maps/place/?q=place_id:" ++ place_id
    else
      let name := result.title.getD ""
      let address := result.address.getD ""
      if name ≠ "" && address ≠ "" then
        "https://www.google.com/maps/search/?api=1&query=" ++ quote (name ++ " " ++ address)
      else ""
  { name := result.title.getD "Unknown"
    category := category
    location := location
    address := result.address.getD ""
    phone := some (result.phone.getD "")
    rating := result.rating.getD 0
    review_count := result.reviews.getD 0
    website := result.website
    google_maps_url := google_maps_url
    latitude := result.gps_latitude
    longitude := result.gps_longitude
    place_id := place_id
    type := result.type.getD ""
    hours := result.hours.getD ""
    source := "google_maps"
    owner_name := none
    search_id := none
    id := none
    website_status := ""
    lead_score := 0
    is_valid_lead := false
    is_super_lead := false
    outreach_stage := "lead"
    validation_notes := "" }

/-! ### Database schema (src/database.py, `_create_tables`)

The storage target is modelled as the list of its tables, each with its
ordered column list; the three SQL operations the method issues are
`CREATE TABLE IF NOT EXISTS`, `ALTER TABLE ... ADD COLUMN` (which SQLite
rejects with an `OperationalError` when the column — or the table — does
not fit), and the `try/except` that swallows that error. -/

structure TableDef where
  name : String
  columns : List String
deriving Repr, DecidableEq

abbrev Schema := List TableDef

/-- Models `CREATE TABLE IF NOT EXISTS`. -/
def createTableIfNotExists (s : Schema) (t : TableDef) : Schema :=
  if s.any (fun x => x.name = t.name) then s else s ++ [t]

/-- Models `ALTER TABLE tbl ADD COLUMN col`: an `OperationalError` when the table
is missing or the column already exists. -/
def alterTableAddColumn (s : Schema) (tbl col : String) : Except String Schema :=
  match s.find? (fun x => x.name = tbl) with
  | none => .error ("no such table: " ++ tbl)
  | some t =>
    if t.columns.contains col then .error ("duplicate column name: " ++ col)
    else .ok (s.map (fun x => if x.name = tbl then ⟨x.name, x.columns ++ [col]⟩ else x))

def searchesTable : TableDef :=
  ⟨"searches", ["id", "query", "location", "engine", "timestamp"]⟩

def businessesTable : TableDef :=
  ⟨"businesses",
   ["id", "name", "category", "location", "address", "phone", "rating",
    "review_count", "website", "website_status", "google_maps_url",
    "lead_score", "is_valid_lead", "validation_notes", "owner_name",
    "last_review_date", "outreach_stage", "review_snippets",
    "discovered_date", "source", "search_id", "notes"]⟩

def demosTable : TableDef :=
  ⟨"demos", ["id", "business_id", "template_used", "demo_url", "local_path", "created_date"]⟩

def outreachTable : TableDef :=
  ⟨"outreach",
   ["id", "business_id", "contact_date", "method", "status", "response_received", "notes"]⟩

/-- Embeds `Database._create_tables`: four `CREATE TABLE IF NOT EXISTS` statements
and the forward migration `ALTER TABLE businesses ADD COLUMN search_id`
whose failure is caught and ignored. -/
def Database.create_tables (s : Schema) : Schema :=
  let s1 := createTableIfNotExists s searchesTable
  let s2 := createTableIfNotExists s1 businessesTable
  let s3 :=
    match alterTableAddColumn s2 "businesses" "search_id" with
    | .ok t => t
    | .error _ => s2   -- `except ...: pass` — column already exists
  let s4 := createTableIfNotExists s3 demosTable
  createTableIfNotExists s4 outreachTable

/-! ### Pipeline (src/pythonanywhere_deploy/pipeline.py, `Pipeline.run`)

The search step is a network call; its result list is a parameter.  The
database is the row list of the `businesses` table plus a count of demo
rows; `add_business` appends a row and returns the rowid. -/

/-- Embeds `Database.add_business` on the row model: returns the new row list and
the assigned id. -/
def db_add_business (rows : List Business) (b : Business) : List Business × ℕ :=
  (rows ++ [b], rows.length + 1)

inductive RunResult where
  /-- the error summary dict -/
  | error (msg : String)
  /-- the zero-valid-leads summary dict -/
  | empty (businesses_found valid_leads : ℕ) (engine : String)
  /-- the full summary dict -/
  | ok (businesses_found valid_leads saved_to_db demos_generated : ℕ)
       (top_leads : List Business) (engine : String)
deriving Repr, DecidableEq

/-- The step-3 save loop: thread the row list, stamp `search_id` when given,
stamp the returned rowid; returns (rows, saved leads, saved count). -/
def saveLeadsLoop (search_id : Option ℤ) :
    List Business → List Business → List Business × List Business × ℕ
  | rows, [] => (rows, [], 0)
  | rows, b :: rest =>
    -- `if search_id:` — Python truthiness, so `None` and `0` both skip
    let b1 := match search_id with
              | some sid => if sid ≠ 0 then { b with search_id := some sid } else b
              | none => b
    let (rows1, bid) := db_add_business rows b1
    let b2 := { b1 with id := some bid }
    let (rowsF, savedRest, n) := saveLeadsLoop search_id rows1 rest
    (rowsF, b2 :: savedRest, n + 1)

/-- Embeds `Pipeline.run`.  `businesses` is what the search step returned,
`rows` the businesses table, `demoRows` the demo-row count; returns the
summary together with the updated store. -/
def Pipeline.run (v : Validator) (businesses : List Business)
    (generate_demos : Bool) (search_id : Option ℤ)
    (rows : List Business) (demoRows : ℕ) : RunResult × List Business × ℕ :=
  if businesses.isEmpty then
    (.error "No businesses found", rows, demoRows)
  else
    let valid_leads := v.filter_valid_leads businesses
    if valid_leads.isEmpty then
      (.empty businesses.length 0 "google_maps", rows, demoRows)
    else
      let (rows1, saved, saved_count) := saveLeadsLoop search_id rows valid_leads
      let demos_generated := if generate_demos then (saved.take 5).length else 0
      (.ok businesses.length valid_leads.length saved_count demos_generated
         (saved.take 5) "google_maps",
       rows1, demoRows + demos_generated)

/-! ### Reference definitions, written from the specification text -/

/-- The spec's reference scoring formula: additive bonuses, the expert-channel
floor of 85, then the clamp into `[0, 100]`. -/
def leadScoreRef (rating : ℚ) (reviews : ℤ) (rating_ok reviews_ok : Bool)
    (website_status source : String) : ℕ :=
  let base := (if rating_ok then 20 else 0) + (if reviews_ok then 20 else 0)
  let rbonus :=
    if mkRat 9 2 ≤ rating then 15 else if mkRat 21 5 ≤ rating then 10 else 0
  let cbonus :=
    if (100 : ℤ) ≤ reviews then 20
    else if (50 : ℤ) ≤ reviews then 15
    else if (30 : ℤ) ≤ reviews then 10
    else 0
  let wbonus :=
    if website_status = "no_website" then 35
    else if website_status = "social_only" then 25
    else if website_status = "broken" then 15
    else 5
  let total := base + rbonus + cbonus + wbonus
  let total := if source = "linkedin" ∨ source = "clutch" then max total 85 else total
  min total 100

/-- The spec's validity rule: expert channels are always valid, otherwise a
present, non-blank phone and (rating or review threshold met). -/
def isValidLeadRef (v : Validator) (b : Business) : Bool :=
  if b.source = "linkedin" ∨ b.source = "clutch" then true
  else (b.phone.isSome && pyStrip (b.phone.getD "") ≠ "") &&
       (decide (v.min_rating ≤ b.rating) || decide (v.min_reviews ≤ b.review_count))

/-- The spec's website classification: absent/empty ⇒ `no_website`; else the
lowercased URL's host (or its path when the host is empty) containing a
configured social-domain substring ⇒ `social_only`; else `has_website`. -/
def checkWebsiteRef (website : Option String) : String :=
  match website with
  | none => "no_website"
  | some w =>
    if w = "" then "no_website"
    else
      let parsed := urlparse (pyLower w)
      let host := parsed.netloc
      let domain := if host = "" then parsed.path else host
      if SOCIAL_ONLY_PATTERNS.any (fun pat => substrIn pat domain) then "social_only"
      else "has_website"

/-- A record with every optional field absent and every defaulted field at
its read-default; concrete test records below are variations of it. -/
def baseBusiness : Business :=
  { name := "", category := "", location := "", address := "", phone := none,
    rating := 0, review_count := 0, website := none, google_maps_url := "",
    latitude := none, longitude := none, place_id := "", type := "", hours := "",
    source := "google_maps", owner_name := none, search_id := none, id := none,
    website_status := "", lead_score := 0, is_valid_lead := false,
    is_super_lead := false, outreach_stage := "lead", validation_notes := "" }

/-- Membership in the expert-channel pair equals the disjunction the spec
writes out. -/
theorem contains_expert_eq (s : String) :
    (["linkedin", "clutch"].contains s) = decide (s = "linkedin" ∨ s = "clutch") := by
  by_cases h1 : s = "linkedin" <;> by_cases h2 : s = "clutch" <;>
    simp [h1, h2, List.contains]

/-! ### Claims -/

/-- An accumulation step `score += a if c` is the addition of a conditional
bonus. -/
theorem accStep1 (c : Prop) [Decidable c] (s a : ℕ) :
    (if c then s + a else s) = s + (if c then a else 0) := by
  split <;> omega

theorem accStep2 (c1 c2 : Prop) [Decidable c1] [Decidable c2] (s a b : ℕ) :
    (if c1 then s + a else if c2 then s + b else s)
      = s + (if c1 then a else if c2 then b else 0) := by
  split_ifs <;> omega

theorem accStep3 (c1 c2 c3 : Prop) [Decidable c1] [Decidable c2] [Decidable c3]
    (s a b c : ℕ) :
    (if c1 then s + a else if c2 then s + b else if c3 then s + c else s)
      = s + (if c1 then a else if c2 then b else if c3 then c else 0) := by
  split_ifs <;> omega

theorem accStepBoth (c : Prop) [Decidable c] (s a b : ℕ) :
    (if c then s + a else s + b) = s + (if c then a else b) := by
  split <;> rfl

/-- C1: the validator's lead score equals the reference formula (threshold
points, rating bonus, review-count bonus, website-status bonus, the
expert-channel floor of 85) clamped into `[0, 100]`; in particular it never
exceeds 100, and the overflowing combination rating 5.0 / 150 reviews /
no website / both thresholds met returns exactly 100. -/
theorem lead_score_matches_reference :
    (∀ (v : Validator) (b : Business) (rating_ok reviews_ok : Bool) (ws : String),
        v.calculate_lead_score b rating_ok reviews_ok ws =
          leadScoreRef b.rating b.review_count rating_ok reviews_ok ws b.source ∧
        v.calculate_lead_score b rating_ok reviews_ok ws ≤ 100) ∧
    Validator.default.calculate_lead_score
      { baseBusiness with rating := 5, review_count := 150 } true true "no_website" = 100 := by
  refine ⟨fun v b rating_ok reviews_ok ws => ⟨?_, ?_⟩, by decide⟩
  · simp only [Validator.calculate_lead_score, leadScoreRef, contains_expert_eq,
      accStep1, accStep2, accStep3, accStepBoth, Nat.zero_add, decide_eq_true_eq]
  · unfold Validator.calculate_lead_score
    exact Nat.min_le_right _ _

/-- C2: a business is a valid lead iff it comes from an expert channel
(`linkedin`/`clutch`), or has a present non-blank phone number and meets the
rating threshold or the review threshold; in particular a non-expert lead
with an empty phone is invalid even at rating 5.0 and 500 reviews. -/
theorem valid_lead_rule :
    (∀ (v : Validator) (b : Business),
        (v.validate_business b).is_valid_lead = isValidLeadRef v b) ∧
    (Validator.default.validate_business
      { baseBusiness with phone := some "", rating := 5, review_count := 500 }).is_valid_lead
      = false := by
  refine ⟨fun v b => ?_, by decide⟩
  simp only [Validator.validate_business, isValidLeadRef, contains_expert_eq]
  by_cases hx : b.source = "linkedin" ∨ b.source = "clutch"
  · simp [hx]
  · simp only [hx, decide_eq_true_eq, if_neg, Bool.if_false_right]
    cases hp : b.phone with
    | none => simp [hasContact, hx]
    | some p =>
      by_cases he : p = ""
      · subst he
        simp [hasContact, pyStrip, Validator.check_rating, Validator.check_reviews, hx]
      · simp [hasContact, he, Validator.check_rating, Validator.check_reviews, hx]

/-- Splitting either raises the mismatched-bracket error or returns the
collapsed-error model's components. -/
theorem urlsplitE_ok_or_error (url : String) :
    urlsplitE url = Except.ok (urlsplit url) ∨
    urlsplitE url = Except.error "Invalid IPv6 URL" := by
  simp only [urlsplitE, urlsplit]
  split <;> split <;> first
    | (right; rfl)
    | (left; rfl)

/-- Parsing either raises the mismatched-bracket error or returns the
collapsed-error model's components. -/
theorem urlparseE_ok_or_error (url : String) :
    urlparseE url = Except.ok (urlparse url) ∨
    urlparseE url = Except.error "Invalid IPv6 URL" := by
  rcases urlsplitE_ok_or_error url with h | h
  · left
    unfold urlparseE urlparse
    rw [h]
  · right
    unfold urlparseE
    rw [h]

/-- The classifier either propagates the mismatched-bracket error or
returns what the collapsed-error classifier computes. -/
theorem check_websiteE_ok_or_error (v : Validator) (w : Option String) :
    v.check_websiteE w = Except.ok (v.check_website w) ∨
    v.check_websiteE w = Except.error "Invalid IPv6 URL" := by
  cases w with
  | none => left; rfl
  | some s =>
    by_cases he : s = ""
    · left
      subst he
      rfl
    · unfold Validator.check_websiteE Validator.check_website
      rcases urlparseE_ok_or_error (pyLower s) with h | h
      · left
        simp only [if_neg he, h]
      · right
        simp only [if_neg he, h]

/-- The collapsed-error classifier computes the spec's classification. -/
theorem check_website_eq_ref (w : Option String) :
    Validator.default.check_website w = checkWebsiteRef w := by
  cases w with
  | none => rfl
  | some s =>
    simp only [Validator.check_website, checkWebsiteRef, Validator.default]
    by_cases he : s = ""
    · simp [he]
    · simp only [he, if_neg, ite_false]
      by_cases hn : (urlparse (pyLower s)).netloc = ""
      · simp [hn]
      · simp [hn]

/-- The collapsed-error classifier never produces `broken`. -/
theorem check_website_ne_broken (v : Validator) (w : Option String) :
    v.check_website w ≠ "broken" := by
  cases w with
  | none => simp [Validator.check_website]
  | some s =>
    simp only [Validator.check_website]
    split_ifs <;> decide

/-- C3, counterexample: on `website = "https://[foo"` the program does not
return a status at all — `urlparse` raises `ValueError: Invalid IPv6 URL`
and `check_website` propagates it — so the claim that every website value
is classified into the trichotomy fails at this input. -/
theorem check_website_raises_counterexample :
    Validator.default.check_websiteE (some "https://[foo")
        = Except.error "Invalid IPv6 URL" ∧
    Validator.default.check_websiteE (some "https://[foo")
        ≠ Except.ok "has_website" := by
  refine ⟨rfl, ?_⟩
  rw [show Validator.default.check_websiteE (some "https://[foo")
      = Except.error "Invalid IPv6 URL" from rfl]
  simp

/-- C3, amended: an absent or empty website is classified `no_website`;
whenever `check_website` returns at all, the returned status is the spec's
classification (`social_only` exactly when the sanitized, lowercased URL's
host — or its path when the host is empty — contains a configured
social-domain substring, else `has_website`), the sole modelled
non-returning case being the propagated `Invalid IPv6 URL` error of a
mismatched-bracket netloc; `broken` is never returned for any input; the
spec's three examples classify as stated, and a URL with leading
control/space characters is sanitized before classification. -/
theorem website_classification_amended :
    (∀ (v : Validator) (w : Option String),
        v.check_websiteE w = Except.ok (v.check_website w) ∨
        v.check_websiteE w = Except.error "Invalid IPv6 URL") ∧
    (∀ w : Option String, Validator.default.check_website w = checkWebsiteRef w) ∧
    (∀ (v : Validator) (w : Option String), v.check_website w ≠ "broken") ∧
    (∀ (v : Validator) (w : Option String),
        v.check_websiteE w ≠ Except.ok "broken") ∧
    Validator.default.check_websiteE (some "https://facebook.com/x")
        = Except.ok "social_only" ∧
    Validator.default.check_websiteE (some "") = Except.ok "no_website" ∧
    Validator.default.check_websiteE none = Except.ok "no_website" ∧
    Validator.default.check_websiteE (some "https://example.com")
        = Except.ok "has_website" ∧
    Validator.default.check_websiteE (some " https://example.com/facebook.com")
        = Except.ok "has_website" := by
  refine ⟨check_websiteE_ok_or_error, check_website_eq_ref,
    check_website_ne_broken, fun v w => ?_, rfl, rfl, rfl, rfl, rfl⟩
  rcases check_websiteE_ok_or_error v w with h | h <;> rw [h]
  · simp [check_website_ne_broken v w]
  · simp

/-- A lead that qualifies as a super lead but has no owner name. -/
def superLeadBusiness : Business :=
  { baseBusiness with phone := some "555", rating := 5, review_count := 100 }

/-- C4: the super-lead flag is exactly (valid ∧ rating ≥ 4.7 ∧ reviews ≥ 50),
the outreach stage follows the precedence `blocked_no_owner` →
`super_lead` → `lead`, and a super-qualifying valid lead without an owner
name lands in `blocked_no_owner`. -/
theorem super_lead_and_outreach_stage :
    (∀ (v : Validator) (b : Business),
        ((v.validate_business b).is_super_lead =
          ((v.validate_business b).is_valid_lead &&
            decide (mkRat 47 10 ≤ b.rating) && decide ((50 : ℤ) ≤ b.review_count))) ∧
        ((v.validate_business b).outreach_stage =
          if (v.validate_business b).is_valid_lead && ownerFalsy b.owner_name
          then "blocked_no_owner"
          else if (v.validate_business b).is_super_lead then "super_lead"
          else "lead")) ∧
    ((Validator.default.validate_business superLeadBusiness).is_valid_lead = true ∧
     (Validator.default.validate_business superLeadBusiness).is_super_lead = true ∧
     (Validator.default.validate_business superLeadBusiness).outreach_stage
        = "blocked_no_owner") :=
  ⟨fun v b => ⟨rfl, rfl⟩, by decide, by decide, by decide⟩

/-- C9: `validate_business` writes exactly the six derived fields; every
other field of the record is returned unchanged. -/
theorem validate_business_frame (v : Validator) (b : Business) :
    (v.validate_business b).name = b.name ∧
    (v.validate_business b).category = b.category ∧
    (v.validate_business b).location = b.location ∧
    (v.validate_business b).address = b.address ∧
    (v.validate_business b).phone = b.phone ∧
    (v.validate_business b).rating = b.rating ∧
    (v.validate_business b).review_count = b.review_count ∧
    (v.validate_business b).website = b.website ∧
    (v.validate_business b).google_maps_url = b.google_maps_url ∧
    (v.validate_business b).latitude = b.latitude ∧
    (v.validate_business b).longitude = b.longitude ∧
    (v.validate_business b).place_id = b.place_id ∧
    (v.validate_business b).type = b.type ∧
    (v.validate_business b).hours = b.hours ∧
    (v.validate_business b).source = b.source ∧
    (v.validate_business b).owner_name = b.owner_name ∧
    (v.validate_business b).search_id = b.search_id ∧
    (v.validate_business b).id = b.id :=
  ⟨rfl, rfl, rfl, rfl, rfl, rfl, rfl, rfl, rfl, rfl, rfl, rfl, rfl, rfl, rfl, rfl, rfl, rfl⟩

/-- C10: an invalid lead is never flagged super lead and always keeps the
plain `lead` outreach stage. -/
theorem invalid_lead_invariant (v : Validator) (b : Business)
    (h : (v.validate_business b).is_valid_lead = false) :
    (v.validate_business b).is_super_lead = false ∧
    (v.validate_business b).outreach_stage = "lead" := by
  simp only [Validator.validate_business] at h ⊢
  rw [h]
  simp

/-- Witness for C10 at a record with no phone number. -/
theorem invalid_lead_invariant_witness :
    (Validator.default.validate_business baseBusiness).is_valid_lead = false ∧
    ((Validator.default.validate_business baseBusiness).is_super_lead = false ∧
     (Validator.default.validate_business baseBusiness).outreach_stage = "lead") :=
  ⟨by decide, invalid_lead_invariant Validator.default baseBusiness (by decide)⟩

/-- C5: `filter_valid_leads` validates each record independently, keeps
exactly the valid ones, orders them with non-increasing `lead_score`, and is
stable: restricted to any fixed score, the output lists the records in their
input order (so equal-score leads keep their relative order). -/
theorem filter_valid_leads_spec (v : Validator) (businesses : List Business) :
    ((v.filter_valid_leads businesses).all (fun b => b.is_valid_lead) = true) ∧
    (v.filter_valid_leads businesses).Pairwise
      (fun a b => b.lead_score ≤ a.lead_score) ∧
    (∀ s : ℕ,
      (v.filter_valid_leads businesses).filter (fun b => b.lead_score = s) =
        ((businesses.map v.validate_business).filter
          (fun b => b.is_valid_lead)).filter (fun b => b.lead_score = s)) := by
  set le : Business → Business → Bool :=
    fun a b => decide (b.lead_score ≤ a.lead_score) with hle
  have htrans : ∀ a b c : Business, le a b → le b c → le a c := by
    intro a b c
    simp only [hle, decide_eq_true_eq]
    omega
  have htotal : ∀ a b : Business, le a b || le b a := by
    intro a b
    simp only [hle]
    rw [Bool.or_eq_true]
    simp only [decide_eq_true_eq]
    omega
  set l := (businesses.map v.validate_business).filter (fun b => b.is_valid_lead)
    with hl
  have hfl : v.filter_valid_leads businesses = l.mergeSort le := rfl
  refine ⟨?_, ?_, ?_⟩
  · rw [List.all_eq_true]
    intro b hb
    rw [hfl, List.mem_mergeSort] at hb
    exact (List.mem_filter.mp hb).2
  · rw [hfl]
    exact (List.sorted_mergeSort htrans htotal l).imp
      (fun h => by simpa [hle] using h)
  · intro s
    set p : Business → Bool := fun b => decide (b.lead_score = s) with hp
    have hpair : (l.filter p).Pairwise (fun a b => le a b = true) := by
      apply List.pairwise_of_forall_mem_list
      intro a ha b hb
      have ha2 := (List.mem_filter.mp ha).2
      have hb2 := (List.mem_filter.mp hb).2
      simp only [hp, decide_eq_true_eq] at ha2 hb2
      simp [hle, ha2, hb2]
    have hsub : List.Sublist (l.filter p) l := List.filter_sublist l
    have h1 : List.Sublist (l.filter p) (l.mergeSort le) :=
      List.sublist_mergeSort htrans htotal hpair hsub
    have h2 : ((l.mergeSort le).filter p).Perm (l.filter p) :=
      (List.mergeSort_perm l le).filter p
    have h3 : (l.filter p).filter p = l.filter p := by
      simp [List.filter_filter]
    have h4 : List.Sublist (l.filter p) ((l.mergeSort le).filter p) := by
      have := h1.filter p
      rwa [h3] at this
    rw [hfl]
    exact (h4.eq_of_length h2.length_eq.symm).symm

/-- C6: `Pipeline.run` short-circuits: with zero search results it returns
the error summary, with zero valid leads the `valid_leads = 0` summary; in
both cases the store (business rows and demo count) is untouched. -/
theorem pipeline_short_circuit (v : Validator) (generate_demos : Bool)
    (search_id : Option ℤ) (rows : List Business) (demoRows : ℕ)
    (businesses : List Business) :
    (businesses = [] →
      Pipeline.run v businesses generate_demos search_id rows demoRows =
        (.error "No businesses found", rows, demoRows)) ∧
    (businesses ≠ [] → v.filter_valid_leads businesses = [] →
      Pipeline.run v businesses generate_demos search_id rows demoRows =
        (.empty businesses.length 0 "google_maps", rows, demoRows)) := by
  constructor
  · intro h
    subst h
    rfl
  · intro hne hf
    simp [Pipeline.run, hne, hf]

/-- Witness for C6: the empty search, and a search whose only hit (a record
with no phone number) is filtered out. -/
theorem pipeline_short_circuit_witness :
    (([] : List Business) = [] ∧
      Pipeline.run Validator.default [] false none [] 0 =
        (.error "No businesses found", [], 0)) ∧
    ([baseBusiness] ≠ ([] : List Business) ∧
      Validator.default.filter_valid_leads [baseBusiness] = [] ∧
      Pipeline.run Validator.default [baseBusiness] false none [] 0 =
        (.empty 1 0 "google_maps", [], 0)) := by
  have h0 : ([baseBusiness].map Validator.default.validate_business).filter
      (fun b => b.is_valid_lead) = [] := rfl
  have hf : Validator.default.filter_valid_leads [baseBusiness] = [] := by
    simp only [Validator.filter_valid_leads, h0]
    exact List.mergeSort_nil
  exact ⟨⟨rfl, (pipeline_short_circuit Validator.default false none [] 0 []).1 rfl⟩,
    by simp,
    hf,
    (pipeline_short_circuit Validator.default false none [] 0 [baseBusiness]).2
      (by simp) hf⟩

/-- The provider item with every field absent. -/
def emptySerpResult : SerpResult :=
  ⟨none, none, none, none, none, none, none, none, none, none, none, none⟩

/-- C7, counterexample: on an item with no `title`, the parsed record's name
is `"Unknown"`, not the empty string the claim asserts. -/
theorem parse_business_name_counterexample :
    (BusinessFinder.parse_business emptySerpResult "restaurants" "Austin TX").name
        = "Unknown" ∧
    (BusinessFinder.parse_business emptySerpResult "restaurants" "Austin TX").name
        ≠ "" :=
  ⟨rfl, by decide⟩

/-- The spec's maps-URL fallback chain: provider link, then place-id URL,
then search URL from name and address, then empty. -/
def mapsUrlRef (result : SerpResult) : String :=
  if result.link.getD "" ≠ "" then result.link.getD ""
  else if result.place_id.getD "" ≠ "" then
    "https://www.google.com/maps/place/?q=place_id:" ++ result.place_id.getD ""
  else if result.title.getD "" ≠ "" && result.address.getD "" ≠ "" then
    "https://www.google.com/maps/search/?api=1&query="
      ++ quote (result.title.getD "" ++ " " ++ result.address.getD "")
  else ""

/-- C7, amended: `_parse_business` always produces a record, defaulting
rating to 0.0, review count to 0, `name` to `"Unknown"`, the other text
fields to the empty string, and building the maps URL by the fallback
chain. -/
theorem parse_business_defaults (result : SerpResult) (category location : String) :
    (BusinessFinder.parse_business result category location).rating
        = result.rating.getD 0 ∧
    (BusinessFinder.parse_business result category location).review_count
        = result.reviews.getD 0 ∧
    (BusinessFinder.parse_business result category location).name
        = result.title.getD "Unknown" ∧
    (BusinessFinder.parse_business result category location).address
        = result.address.getD "" ∧
    (BusinessFinder.parse_business result category location).phone
        = some (result.phone.getD "") ∧
    (BusinessFinder.parse_business result category location).type
        = result.type.getD "" ∧
    (BusinessFinder.parse_business result category location).hours
        = result.hours.getD "" ∧
    (BusinessFinder.parse_business result category location).category = category ∧
    (BusinessFinder.parse_business result category location).location = location ∧
    (BusinessFinder.parse_business result category location).google_maps_url
        = mapsUrlRef result :=
  ⟨rfl, rfl, rfl, rfl, rfl, rfl, rfl, rfl, rfl, rfl⟩

/-! ### C8: idempotence of `_create_tables` -/

/-- A table of this name is present. -/
def hasTable (s : Schema) (n : String) : Bool :=
  s.any (fun x => x.name = n)

theorem hasTable_create_self (s : Schema) (t : TableDef) :
    hasTable (createTableIfNotExists s t) t.name = true := by
  unfold createTableIfNotExists
  split
  · assumption
  · simp [hasTable]

theorem hasTable_create_mono (s : Schema) (t : TableDef) (n : String)
    (h : hasTable s n = true) :
    hasTable (createTableIfNotExists s t) n = true := by
  unfold createTableIfNotExists
  split
  · exact h
  · unfold hasTable at h ⊢
    simp only [List.any_append, h, Bool.true_or]

theorem create_of_hasTable (s : Schema) (t : TableDef)
    (h : hasTable s t.name = true) :
    createTableIfNotExists s t = s := by
  unfold createTableIfNotExists
  exact if_pos h

/-- The column-adding rewrite of the migration keeps every table's name. -/
theorem alterMap_name (tbl col : String) (x : TableDef) :
    (if x.name = tbl then TableDef.mk x.name (x.columns ++ [col]) else x).name
      = x.name := by
  split <;> rfl

/-- The state after the guarded migration
`try: ALTER ... except: pass` of `_create_tables`. -/
def alterStep (s : Schema) (tbl col : String) : Schema :=
  match alterTableAddColumn s tbl col with
  | .ok t => t
  | .error _ => s

theorem create_tables_as_steps (s : Schema) :
    Database.create_tables s =
      createTableIfNotExists
        (createTableIfNotExists
          (alterStep (createTableIfNotExists (createTableIfNotExists s searchesTable)
              businessesTable) "businesses" "search_id")
          demosTable)
        outreachTable := rfl

theorem hasTable_alterStep (s : Schema) (tbl col n : String)
    (h : hasTable s n = true) :
    hasTable (alterStep s tbl col) n = true := by
  unfold alterStep alterTableAddColumn
  cases hf : s.find? (fun x => x.name = tbl) with
  | none => exact h
  | some t =>
    by_cases hc : t.columns.contains col
    · simp only [hc, if_pos]
      exact h
    · simp only [hc, if_neg, Bool.not_eq_true]
      unfold hasTable at h ⊢
      rw [List.any_map]
      have : ((fun x => decide (x.name = n)) ∘ fun x =>
          if x.name = tbl then TableDef.mk x.name (x.columns ++ [col]) else x) =
          fun x => decide (x.name = n) := by
        funext x
        simp [Function.comp, alterMap_name tbl col x]
      rw [this]
      exact h

/-- The `businesses` table carries the `search_id` column. -/
def businessesMigrated (s : Schema) : Prop :=
  ∃ t, s.find? (fun x => x.name = "businesses") = some t ∧
       t.columns.contains "search_id" = true

/-- After the migration step the `businesses` table (present beforehand)
carries `search_id`, whether the `ALTER` succeeded or was rejected. -/
theorem migrated_alterStep (s : Schema)
    (h : hasTable s "businesses" = true) :
    businessesMigrated (alterStep s "businesses" "search_id") := by
  unfold alterStep alterTableAddColumn
  cases hf : s.find? (fun x => x.name = "businesses") with
  | none =>
    rw [List.find?_eq_none] at hf
    unfold hasTable at h
    rw [List.any_eq_true] at h
    obtain ⟨x, hx, hpx⟩ := h
    exact absurd hpx (hf x hx)
  | some t =>
    by_cases hc : t.columns.contains "search_id"
    · simp only [hc, if_pos]
      exact ⟨t, hf, hc⟩
    · simp only [hc, if_neg, Bool.not_eq_true]
      refine ⟨TableDef.mk t.name (t.columns ++ ["search_id"]), ?_, ?_⟩
      · rw [List.find?_map]
        have : ((fun x => decide (x.name = "businesses")) ∘ fun x =>
            if x.name = "businesses" then
              TableDef.mk x.name (x.columns ++ ["search_id"]) else x) =
            fun x => decide (x.name = "businesses") := by
          funext x
          simp [Function.comp, alterMap_name]
        rw [this, hf]
        have ht : t.name = "businesses" := by
          simpa using List.find?_some hf
        simp [ht]
      · simp

theorem migrated_create (s : Schema) (t : TableDef)
    (h : businessesMigrated s) :
    businessesMigrated (createTableIfNotExists s t) := by
  obtain ⟨x, hf, hc⟩ := h
  unfold createTableIfNotExists
  split
  · exact ⟨x, hf, hc⟩
  · exact ⟨x, by rw [List.find?_append, hf]; rfl, hc⟩

theorem alterStep_error_of_migrated (s : Schema)
    (h : businessesMigrated s) :
    alterStep s "businesses" "search_id" = s := by
  obtain ⟨t, hf, hc⟩ := h
  have hm : "search_id" ∈ t.columns := by simpa using hc
  simp [alterStep, alterTableAddColumn, hf, hm]

/-- Re-running `_create_tables` on the schema a first run produced changes
nothing, whatever the starting schema was. -/
theorem create_tables_stable (s : Schema) :
    Database.create_tables (Database.create_tables s) = Database.create_tables s := by
  have h1 : hasTable (Database.create_tables s) searchesTable.name = true := by
    rw [create_tables_as_steps]
    exact hasTable_create_mono _ _ _ (hasTable_create_mono _ _ _
      (hasTable_alterStep _ _ _ _ (hasTable_create_mono _ _ _
        (hasTable_create_self s searchesTable))))
  have h2 : hasTable (Database.create_tables s) businessesTable.name = true := by
    rw [create_tables_as_steps]
    exact hasTable_create_mono _ _ _ (hasTable_create_mono _ _ _
      (hasTable_alterStep _ _ _ _ (hasTable_create_self _ businessesTable)))
  have h3 : hasTable (Database.create_tables s) demosTable.name = true := by
    rw [create_tables_as_steps]
    exact hasTable_create_mono _ _ _ (hasTable_create_self _ demosTable)
  have h4 : hasTable (Database.create_tables s) outreachTable.name = true := by
    rw [create_tables_as_steps]
    exact hasTable_create_self _ outreachTable
  have hm : businessesMigrated (Database.create_tables s) := by
    rw [create_tables_as_steps]
    refine migrated_create _ _ (migrated_create _ _ (migrated_alterStep _ ?_))
    exact hasTable_create_self _ businessesTable
  rw [create_tables_as_steps (Database.create_tables s)]
  rw [create_of_hasTable _ _ h1, create_of_hasTable _ _ h2,
    alterStep_error_of_migrated _ hm, create_of_hasTable _ _ h3,
    create_of_hasTable _ _ h4]

/-- C8: schema initialisation is idempotent — running `_create_tables` twice
against the same storage target produces no duplicate tables or columns and
no error (every `CREATE` is behind `IF NOT EXISTS`, the function never
propagates an exception, and on an already-migrated store the forward
migration's `ALTER` is exactly the duplicate-column error that the
`except` clause catches and ignores). -/
theorem create_tables_idempotent :
    (∀ s : Schema,
        Database.create_tables (Database.create_tables s) = Database.create_tables s) ∧
    alterTableAddColumn (Database.create_tables []) "businesses" "search_id"
      = Except.error "duplicate column name: search_id" :=
  ⟨create_tables_stable, rfl⟩

end LocalBusiness
